import Mathlib

/-!
Shallow embedding of `src/components/markdown-editor.tsx` (and its caller
`src/app/page.tsx`): a single React component holding a markdown string,
two flags (`isLibraryLoaded`, `isExporting`), a clipboard copy handler, a
PDF export handler, a library-load poll, and a rendering pipeline wired to
the current markdown string.  Handlers are modelled as pure functions from
the component state and a per-invocation environment (what the DOM and the
browser APIs would answer) to the new state and a list of observable
effects, in the order the code performs them.
-/

namespace MarkdownEditor

/-- Toast severity: the code passes `variant: "destructive"` on failures and
omits the variant (normal) otherwise. -/
inductive ToastVariant where
  | normal
  | destructive
deriving DecidableEq

/-- A toast notification as produced by `useToast`'s `toast({...})` calls:
title, description and variant. -/
structure Toast where
  title : String
  description : String
  variant : ToastVariant
deriving DecidableEq

/-- The fixed `opt` object built in `handleExport` (lines 164-170):
`margin`, `filename`, `image: \x7b type, quality \x7d`,
`html2canvas: \x7b scale \x7d`, `jsPDF: \x7b unit, format, orientation \x7d`.
The JS number `0.98` is modelled as the rational `98/100`. -/
structure PdfOptions where
  margin : Nat
  filename : String
  imageType : String
  imageQuality : ℚ
  html2canvasScale : Nat
  jsPDFUnit : String
  jsPDFFormat : String
  jsPDFOrientation : String
deriving DecidableEq

/-- The literal configuration `handleExport` always passes to
`window.html2pdf`. -/
def exportOptions : PdfOptions :=
  { margin := 10
    filename := "markdown-export.pdf"
    imageType := "jpeg"
    imageQuality := (98 : ℚ) / 100
    html2canvasScale := 2
    jsPDFUnit := "mm"
    jsPDFFormat := "a4"
    jsPDFOrientation := "portrait" }

/-- Observable effects a handler invocation performs, in program order:
toasts, console logging, clipboard write attempts, the `window.html2pdf`
call, and the `setIsExporting` state-setter calls. -/
inductive Effect where
  | toast (t : Toast)
  | consoleError (msg : String)
  | clipboardWriteRich (html : String) (text : String)
  | clipboardWriteText (text : String)
  | html2pdfCall (element : String) (opt : PdfOptions)
  | setIsExporting (b : Bool)
deriving DecidableEq

/-- The component's React state: the `markdown` string and the two boolean
flags (`useState` at lines 39, 42, 43). -/
structure EditorState where
  markdown : String
  isLibraryLoaded : Bool
  isExporting : Bool
deriving DecidableEq

/-- The `defaultMarkdown` template literal (lines 16-36). -/
def defaultMarkdown : String :=
  "# Hello, Markdown!\n\nThis is a **real-time** markdown editor.\n\n## Features\n- Write markdown on the left\n- See the preview on the right\n- Export to PDF\n- Copy to clipboard\n\n### Code Example\n```javascript\nfunction hello() \x7b\n  console.log(\"Hello, world!\");\n\x7d\n```\n\n> This is a blockquote\n\nEnjoy writing markdown!\n"

/-- Initial state: `useState(defaultMarkdown)`, `useState(false)` for both
flags. -/
def initialState : EditorState :=
  { markdown := defaultMarkdown, isLibraryLoaded := false, isExporting := false }

/-- Per-invocation environment: what the DOM and the browser answer when a
handler runs.  `previewMounted` is whether `previewRef.current` is non-null;
`previewNode` identifies that node; `previewHtml` / `previewText` are the
styled clone's `innerHTML` and the node's `innerText`; `html2pdfPresent` is
whether `window.html2pdf` is defined; the three `Succeeds` fields are
whether the corresponding awaited browser call resolves rather than
throws. -/
structure Env where
  previewMounted : Bool
  previewNode : String
  previewHtml : String
  previewText : String
  html2pdfPresent : Bool
  richCopySucceeds : Bool
  plainCopySucceeds : Bool
  exportSucceeds : Bool

/-- Toast at lines 120-123: rich copy succeeded. -/
def copiedRichToast : Toast :=
  { title := "Copied to clipboard"
    description := "The rich text content has been copied to your clipboard"
    variant := .normal }

/-- Toast at lines 130-134: plain-text fallback succeeded. -/
def copiedPlainToast : Toast :=
  { title := "Copied to clipboard"
    description := "The content has been copied as plain text (rich text copy failed)"
    variant := .normal }

/-- Toast at lines 136-140: both copy attempts failed. -/
def copyFailedToast : Toast :=
  { title := "Failed to copy"
    description := "Could not copy content to clipboard"
    variant := .destructive }

/-- Toast at lines 147-151: precondition guard of `handleExport`. -/
def exportNotLoadedToast : Toast :=
  { title := "Export failed"
    description := "PDF library not loaded yet. Please try again."
    variant := .destructive }

/-- Toast at lines 158-161: informational, export starting. -/
def generatingToast : Toast :=
  { title := "Generating PDF"
    description := "Your PDF is being generated"
    variant := .normal }

/-- Toast at lines 175-178: export succeeded. -/
def exportedToast : Toast :=
  { title := "PDF exported"
    description := "Your PDF has been downloaded"
    variant := .normal }

/-- Toast at lines 181-185: the `html2pdf` call threw. -/
def exportErrorToast : Toast :=
  { title := "Export failed"
    description := "There was an error generating your PDF"
    variant := .destructive }

/-- `handleCopy` (lines 64-143).  If the preview node is not mounted the
handler returns silently.  Otherwise it tries the multi-format
(`text/html` + `text/plain`) clipboard write; on rejection it logs the
error and falls back to `clipboard.writeText` of the preview's
`innerText`; each path ends in exactly one toast.  Modelled as a total
function (the TS function catches every failure path, so it never throws),
returning the list of effects in program order. -/
def handleCopy (env : Env) : List Effect :=
  if env.previewMounted = false then []
  else if env.richCopySucceeds then
    [Effect.clipboardWriteRich env.previewHtml env.previewText,
     Effect.toast copiedRichToast]
  else if env.plainCopySucceeds then
    [Effect.clipboardWriteRich env.previewHtml env.previewText,
     Effect.consoleError "Copy error:",
     Effect.clipboardWriteText env.previewText,
     Effect.toast copiedPlainToast]
  else
    [Effect.clipboardWriteRich env.previewHtml env.previewText,
     Effect.consoleError "Copy error:",
     Effect.clipboardWriteText env.previewText,
     Effect.toast copyFailedToast]

/-- `handleExport` (lines 145-189).  Guard: if `previewRef.current` is null,
or `isLibraryLoaded` is false, or `window.html2pdf` is undefined, toast the
failure and return with no other effect.  Otherwise: `setIsExporting(true)`,
informational toast, `await window.html2pdf(element, opt)`; on resolve a
success toast, on throw a `console.error` plus failure toast; `finally`
`setIsExporting(false)`.  Returns the resulting state and the effect list
in program order. -/
def handleExport (s : EditorState) (env : Env) : EditorState × List Effect :=
  if env.previewMounted = false ∨ s.isLibraryLoaded = false ∨ env.html2pdfPresent = false then
    (s, [Effect.toast exportNotLoadedToast])
  else
    ({ s with isExporting := false },
     [Effect.setIsExporting true,
      Effect.toast generatingToast,
      Effect.html2pdfCall env.previewNode exportOptions] ++
     (if env.exportSucceeds then
        [Effect.toast exportedToast]
      else
        [Effect.consoleError "PDF generation error:",
         Effect.toast exportErrorToast]) ++
     [Effect.setIsExporting false])

/-- The Export PDF button's `disabled` prop (line 263):
`!isLibraryLoaded || isExporting`. -/
def exportButtonDisabled (s : EditorState) : Bool :=
  !s.isLibraryLoaded || s.isExporting

/-- Triggering the Export-PDF action through the UI: a click on a disabled
button dispatches nothing, otherwise `handleExport` runs. -/
def clickExport (s : EditorState) (env : Env) : EditorState × List Effect :=
  if exportButtonDisabled s then (s, []) else handleExport s env

/-- Recognise toast effects. -/
def isToastEffect : Effect → Bool
  | .toast _ => true
  | _ => false

/-- The toasts of an effect list, in order. -/
def toastsOf (effs : List Effect) : List Toast :=
  effs.filterMap fun e =>
    match e with
    | .toast t => some t
    | _ => none

/-- Recognise `window.html2pdf` calls. -/
def isLibCall : Effect → Bool
  | .html2pdfCall _ _ => true
  | _ => false

/-- The fixed configuration of the `ReactMarkdown` element (lines 275-277):
`remarkPlugins=[remarkGfm]`, `rehypePlugins=[rehypeRaw]`, plus the two
per-node overrides given in `components` (for `code` and `blockquote`). -/
structure RenderConfig where
  remarkPlugins : List String
  rehypePlugins : List String
  codeOverride : Bool
  blockquoteOverride : Bool
deriving DecidableEq

/-- The one configuration the editor ever renders with. -/
def editorRenderConfig : RenderConfig :=
  { remarkPlugins := ["remarkGfm"]
    rehypePlugins := ["rehypeRaw"]
    codeOverride := true
    blockquoteOverride := true }

/-- What the Preview Pane displays: the external markdown-to-HTML pipeline
(an explicit non-goal of this repository, owned by react-markdown) applied
to a source string under a fixed configuration.  Two previews are equal iff
they were produced by the same pipeline configuration from the same
source. -/
structure RenderedPreview where
  config : RenderConfig
  source : String
deriving DecidableEq

/-- `render(S)`: the fixed pipeline applied to `S` (line 275-332, the
`ReactMarkdown` element with its plugin and component props). -/
def render (md : String) : RenderedPreview :=
  { config := editorRenderConfig, source := md }

/-- The Preview Pane's content as a function of component state: the JSX
passes exactly `markdown` (the state string) as the child of
`ReactMarkdown` (line 331). -/
def previewMarkup (s : EditorState) : RenderedPreview :=
  render s.markdown

/-- The Textarea's `onChange` (line 242): replaces the document with the
control's full new value. -/
def onInputChange (s : EditorState) (value : String) : EditorState :=
  { s with markdown := value }

/-- JS `\w`: ASCII letters, digits and underscore. -/
def isWordChar (c : Char) : Bool :=
  c.isAlpha || c.isDigit || c = '_'

/-- The maximal leading run of word characters (the greedy `\w+` capture). -/
def takeWordChars : List Char → List Char
  | [] => []
  | c :: cs => if isWordChar c then c :: takeWordChars cs else []

/-- The literal part of the regex `/language-(\w+)/`. -/
def languageMarker : List Char := "language-".toList

/-- `exec` of `/language-(\w+)/`: scan left to right for the first position
where `language-` is followed by at least one word character, and return
the greedy `\w+` capture group there. -/
def execLanguageRegex : List Char → Option (List Char)
  | [] => none
  | c :: cs =>
    if languageMarker.isPrefixOf (c :: cs) then
      let w := takeWordChars ((c :: cs).drop languageMarker.length)
      if w.isEmpty then execLanguageRegex cs else some w
    else execLanguageRegex cs

/-- Line 280: `/language-(\w+)/.exec(className || "")`, with a missing
`className` treated as the empty string and the capture group returned. -/
def matchLanguage (className : Option String) : Option String :=
  (execLanguageRegex (className.getD "").toList).map fun w => String.mk w

/-- The two shapes the `code` component override can produce: the
`SyntaxHighlighter` element with its fixed props (lines 282-306), or the
fallthrough plain `code` element keeping its `className` (lines 308-310). -/
inductive CodeRendering where
  | highlighted (style : String) (language : String) (preTag : String)
      (wrapLines : Bool) (wrapLongLines : Bool) (content : String)
  | plain (className : Option String) (content : String)
deriving DecidableEq

/-- Line 305: `String(children).replace(/\n$/, "")` removes one trailing
newline. -/
def stripTrailingNewline (s : String) : String :=
  if s.endsWith "\n" then s.dropRight 1 else s

/-- The `components.code` override (lines 279-312): when the node is not
inline and the className matches `language-(\w+)`, render the highlighter
with the vscDarkPlus theme and the captured language; otherwise render a
plain `code` element with the original className and children. -/
def codeComponent (inline : Bool) (className : Option String) (children : String) :
    CodeRendering :=
  match matchLanguage className with
  | some lang =>
    if inline = false then
      .highlighted "vscDarkPlus" lang "pre" true true (stripTrailingNewline children)
    else
      .plain className children
  | none => .plain className children

/-- The browser's timer table: pending timeout ids and the id the next
`setTimeout` will return. -/
structure TimerWorld where
  pending : List Nat
  nextId : Nat
deriving DecidableEq

/-- A fresh timer table. -/
def timersEmpty : TimerWorld := { pending := [], nextId := 0 }

/-- JS `setTimeout(cb, delay)`: registers a pending timeout and returns its
id. -/
def jsSetTimeout (w : TimerWorld) : Nat × TimerWorld :=
  (w.nextId, { pending := w.pending ++ [w.nextId], nextId := w.nextId + 1 })

/-- What can be passed to `clearTimeout`: a real timer id, or any other
value (which the browser ignores — `clearTimeout` with an argument that is
not an id returned by `setTimeout` is a no-op). -/
inductive ClearArg where
  | timerId (n : Nat)
  | notATimerId
deriving DecidableEq

/-- JS `clearTimeout`: removes the named pending timeout; a value that is
not a timer id clears nothing. -/
def jsClearTimeout (w : TimerWorld) : ClearArg → TimerWorld
  | .timerId n => { w with pending := w.pending.filter fun m => m ≠ n }
  | .notATimerId => w

/-- One run of `checkLibraryLoaded` (lines 47-54): if `window.html2pdf` is
present, set the flag; otherwise `setTimeout(checkLibraryLoaded, 500)` —
whose returned id the code discards.  Returns the timer table and whether
the flag was set. -/
def mountLibraryCheck (html2pdfPresent : Bool) (w : TimerWorld) : TimerWorld × Bool :=
  if html2pdfPresent then (w, true)
  else ((jsSetTimeout w).2, false)

/-- The effect cleanup (lines 58-61):
`clearTimeout(checkLibraryLoaded as unknown as number)`.  The argument is
the callback function itself cast to a number — not an id returned by
`setTimeout` — so the browser receives a value that is not a timer id. -/
def unmountCleanup (w : TimerWorld) : TimerWorld :=
  jsClearTimeout w .notATimerId

/-- The events that can reach the component over its lifetime: a poll tick
(`checkLibraryLoaded` runs, observing whether `window.html2pdf` is
present), the `Script` element's `onLoad` callback (line 196), an edit of
the Textarea, and clicks of the two buttons. -/
inductive Event where
  | pollTick (html2pdfPresent : Bool)
  | scriptOnLoad
  | edit (value : String)
  | exportClick (env : Env)
  | copyClick (env : Env)

/-- The state transition each event performs.  `pollTick` sets
`isLibraryLoaded` when the library is present and otherwise only
reschedules; `scriptOnLoad` is `setIsLibraryLoaded(true)`; `edit` is the
Textarea `onChange`; the button clicks run their handlers (`handleCopy`
never touches state). -/
def step (s : EditorState) : Event → EditorState
  | .pollTick present => if present then { s with isLibraryLoaded := true } else s
  | .scriptOnLoad => { s with isLibraryLoaded := true }
  | .edit v => onInputChange s v
  | .exportClick env => (clickExport s env).1
  | .copyClick _ => s

/-- Run a sequence of events from a state. -/
def run (s : EditorState) (es : List Event) : EditorState :=
  es.foldl step s

/-- How many steps of the trace flip `isLibraryLoaded` from false to
true. -/
def countFlagRises (s : EditorState) : List Event → Nat
  | [] => 0
  | e :: es =>
    (if s.isLibraryLoaded = false ∧ (step s e).isLibraryLoaded = true then 1 else 0)
      + countFlagRises (step s e) es

/-- A concrete environment in which every browser call succeeds, used to
instantiate the theorems below on concrete inputs. -/
def envAllOk : Env :=
  { previewMounted := true
    previewNode := "previewRef.current"
    previewHtml := "<h1>Hello, Markdown!</h1>"
    previewText := "Hello, Markdown!"
    html2pdfPresent := true
    richCopySucceeds := true
    plainCopySucceeds := true
    exportSucceeds := true }

/-- The component state once the PDF library has loaded. -/
def readyState : EditorState :=
  { initialState with isLibraryLoaded := true }

/-- Claim C1: the Preview Pane's rendered content equals `render(S)` where
`S` is the Input Pane's current string; an edit re-renders from the new
full value; and the preview is pure with respect to `S` — it depends on
nothing in the state but the markdown string, so two states holding the
same string render identically. -/
theorem preview_equals_render :
    (∀ s : EditorState, previewMarkup s = render s.markdown) ∧
    (∀ (s : EditorState) (v : String), previewMarkup (onInputChange s v) = render v) ∧
    (∀ s₁ s₂ : EditorState, s₁.markdown = s₂.markdown →
      previewMarkup s₁ = previewMarkup s₂) := by
  refine ⟨fun s => rfl, fun s v => rfl, fun s₁ s₂ h => ?_⟩
  unfold previewMarkup
  rw [h]

/-- Concrete instance of `preview_equals_render`. -/
theorem preview_equals_render_witness :
    previewMarkup initialState = render initialState.markdown ∧
    previewMarkup (onInputChange initialState "# Title") = render "# Title" ∧
    previewMarkup { initialState with isExporting := true } = previewMarkup initialState :=
  ⟨preview_equals_render.1 initialState,
   preview_equals_render.2.1 initialState "# Title",
   preview_equals_render.2.2 { initialState with isExporting := true } initialState rfl⟩

/-- Claim C2: with the Preview Pane mounted, the Copy action (a total
function here, mirroring that every failure path of the TS code is caught)
emits exactly one toast: the rich-success toast when the multi-format
write resolves, the degraded plain-text toast when it rejects but the
fallback resolves, and the failure toast when both reject. -/
theorem copy_single_notification (env : Env) (h : env.previewMounted = true) :
    (toastsOf (handleCopy env)).length = 1 ∧
    (env.richCopySucceeds = true →
      toastsOf (handleCopy env) = [copiedRichToast]) ∧
    (env.richCopySucceeds = false → env.plainCopySucceeds = true →
      toastsOf (handleCopy env) = [copiedPlainToast]) ∧
    (env.richCopySucceeds = false → env.plainCopySucceeds = false →
      toastsOf (handleCopy env) = [copyFailedToast]) := by
  cases hr : env.richCopySucceeds <;> cases hp : env.plainCopySucceeds <;>
    simp [handleCopy, toastsOf, h, hr, hp]

/-- Concrete instances of `copy_single_notification`, one per outcome. -/
theorem copy_single_notification_witness :
    toastsOf (handleCopy envAllOk) = [copiedRichToast] ∧
    toastsOf (handleCopy { envAllOk with richCopySucceeds := false }) = [copiedPlainToast] ∧
    toastsOf (handleCopy
      { envAllOk with richCopySucceeds := false, plainCopySucceeds := false })
      = [copyFailedToast] :=
  ⟨(copy_single_notification envAllOk rfl).2.1 rfl,
   (copy_single_notification { envAllOk with richCopySucceeds := false } rfl).2.2.1 rfl rfl,
   (copy_single_notification
      { envAllOk with richCopySucceeds := false, plainCopySucceeds := false } rfl).2.2.2
      rfl rfl⟩

/-- Claim C3: with the Export Readiness Flag false the Export-PDF action is
a no-op: the state (both flags included) is returned unchanged, the only
effect is the single destructive "library not loaded" toast, and no
`window.html2pdf` call occurs. -/
theorem export_noop_when_not_ready (s : EditorState) (env : Env)
    (h : s.isLibraryLoaded = false) :
    handleExport s env = (s, [Effect.toast exportNotLoadedToast]) ∧
    (handleExport s env).2.filter isLibCall = [] ∧
    (toastsOf (handleExport s env).2).length = 1 ∧
    exportNotLoadedToast.variant = ToastVariant.destructive := by
  simp [handleExport, h, toastsOf, isLibCall, exportNotLoadedToast]

/-- Concrete instance of `export_noop_when_not_ready` at the initial state
(library not yet loaded) with every browser call able to succeed. -/
theorem export_noop_when_not_ready_witness :
    handleExport initialState envAllOk = (initialState, [Effect.toast exportNotLoadedToast]) :=
  (export_noop_when_not_ready initialState envAllOk rfl).1

/-- Claim C4: when the precondition passes, the effect trace is exactly
`setIsExporting(true)`, the informational toast, the library call, then —
on resolve — the success toast, or — on throw — the logged error and the
failure toast, and in both cases the trace ends with
`setIsExporting(false)`; exactly one toast follows the library call, and
the resulting state is the idle one (`isExporting = false`, everything
else untouched), permitting a manual retry. -/
theorem export_resets_and_notifies (s : EditorState) (env : Env)
    (hm : env.previewMounted = true) (hl : s.isLibraryLoaded = true)
    (hp : env.html2pdfPresent = true) :
    (env.exportSucceeds = true →
      (handleExport s env).2 =
        [Effect.setIsExporting true, Effect.toast generatingToast,
         Effect.html2pdfCall env.previewNode exportOptions,
         Effect.toast exportedToast, Effect.setIsExporting false]) ∧
    (env.exportSucceeds = false →
      (handleExport s env).2 =
        [Effect.setIsExporting true, Effect.toast generatingToast,
         Effect.html2pdfCall env.previewNode exportOptions,
         Effect.consoleError "PDF generation error:",
         Effect.toast exportErrorToast, Effect.setIsExporting false]) ∧
    (toastsOf ((handleExport s env).2.drop 3)).length = 1 ∧
    (handleExport s env).1 = { s with isExporting := false } := by
  cases he : env.exportSucceeds <;>
    simp [handleExport, hm, hl, hp, he, toastsOf]

/-- Concrete instance of `export_resets_and_notifies`: the successful
export trace from the ready state. -/
theorem export_resets_and_notifies_witness :
    (handleExport readyState envAllOk).2 =
      [Effect.setIsExporting true, Effect.toast generatingToast,
       Effect.html2pdfCall envAllOk.previewNode exportOptions,
       Effect.toast exportedToast, Effect.setIsExporting false] :=
  (export_resets_and_notifies readyState envAllOk rfl rfl rfl).1 rfl

/-- Claim C5: triggering Export-PDF while `isExporting` is true dispatches
nothing — the button is disabled, so the click produces no effect at all
and in particular no `window.html2pdf` call; in this single-threaded model
a second library call therefore never starts while one is in flight. -/
theorem no_second_export_call (s : EditorState) (env : Env)
    (h : s.isExporting = true) :
    clickExport s env = (s, []) ∧
    (clickExport s env).2.filter isLibCall = [] := by
  simp [clickExport, exportButtonDisabled, h]

/-- Concrete instance of `no_second_export_call`: a click during an export
from the ready state does nothing. -/
theorem no_second_export_call_witness :
    clickExport { readyState with isExporting := true } envAllOk
      = ({ readyState with isExporting := true }, []) :=
  (no_second_export_call { readyState with isExporting := true } envAllOk rfl).1

/-- Claim C6 fails on the code: mounting with `window.html2pdf` absent
schedules one poll timeout (id 0), whose id the code discards; the effect
cleanup passes the callback function itself — not a timer id — to
`clearTimeout`, which therefore clears nothing, so after unmount the poll
timeout is still pending and its callback will fire again. -/
theorem poll_timer_survives_unmount :
    (unmountCleanup (mountLibraryCheck false timersEmpty).1).pending = [0] ∧
    (unmountCleanup (mountLibraryCheck false timersEmpty).1).pending ≠ [] := by
  decide

/-- Claim C7: whenever the precondition passes and the export resolves, the
one `window.html2pdf` call in the trace targets the Preview Pane's root
node with exactly the fixed configuration: 10mm margin, JPEG at quality
0.98, 2x scale, A4 portrait in millimetres, filename
`markdown-export.pdf`. -/
theorem export_call_fixed_config (s : EditorState) (env : Env)
    (hm : env.previewMounted = true) (hl : s.isLibraryLoaded = true)
    (hp : env.html2pdfPresent = true) (hs : env.exportSucceeds = true) :
    (handleExport s env).2.filter isLibCall =
      [Effect.html2pdfCall env.previewNode
        { margin := 10
          filename := "markdown-export.pdf"
          imageType := "jpeg"
          imageQuality := (98 : ℚ) / 100
          html2canvasScale := 2
          jsPDFUnit := "mm"
          jsPDFFormat := "a4"
          jsPDFOrientation := "portrait" }] := by
  simp [handleExport, hm, hl, hp, hs, isLibCall, exportOptions]

/-- Concrete instance of `export_call_fixed_config` from the ready state. -/
theorem export_call_fixed_config_witness :
    (handleExport readyState envAllOk).2.filter isLibCall =
      [Effect.html2pdfCall envAllOk.previewNode exportOptions] :=
  export_call_fixed_config readyState envAllOk rfl rfl rfl rfl

/-- Claim C8: a non-inline code node whose className matches
`language-(\w+)` renders through the highlighter with the captured
language (and the fixed vscDarkPlus theme and trailing newline stripped);
an inline node, or one with no matching language tag, falls back to an
undecorated `code` element keeping its className and children. -/
theorem code_block_highlighting (inline : Bool) (className : Option String)
    (children : String) :
    (∀ lang, inline = false → matchLanguage className = some lang →
      codeComponent inline className children =
        CodeRendering.highlighted "vscDarkPlus" lang "pre" true true
          (stripTrailingNewline children)) ∧
    ((inline = true ∨ matchLanguage className = none) →
      codeComponent inline className children = CodeRendering.plain className children) := by
  constructor
  · intro lang hi hm
    simp [codeComponent, hm, hi]
  · rintro (hi | hm)
    · cases hm : matchLanguage className <;> simp [codeComponent, hm, hi]
    · simp [codeComponent, hm]

/-- Concrete instances of `code_block_highlighting`: the fenced
`javascript` block from the spec scenario, and the inline fallback. -/
theorem code_block_highlighting_witness :
    codeComponent false (some "language-javascript") "console.log(1);\n" =
      CodeRendering.highlighted "vscDarkPlus" "javascript" "pre" true true
        (stripTrailingNewline "console.log(1);\n") ∧
    codeComponent true (some "language-javascript") "x" =
      CodeRendering.plain (some "language-javascript") "x" :=
  ⟨(code_block_highlighting false (some "language-javascript") "console.log(1);\n").1
      "javascript" rfl (by decide),
   (code_block_highlighting true (some "language-javascript") "x").2 (Or.inl rfl)⟩

/-- `handleExport` never changes `isLibraryLoaded`. -/
theorem handleExport_fst_isLibraryLoaded (s : EditorState) (env : Env) :
    (handleExport s env).1.isLibraryLoaded = s.isLibraryLoaded := by
  unfold handleExport
  split <;> rfl

/-- A click of the export button never changes `isLibraryLoaded`. -/
theorem clickExport_fst_isLibraryLoaded (s : EditorState) (env : Env) :
    (clickExport s env).1.isLibraryLoaded = s.isLibraryLoaded := by
  unfold clickExport
  split
  · rfl
  · exact handleExport_fst_isLibraryLoaded s env

/-- No event resets `isLibraryLoaded`: once true it stays true. -/
theorem step_flag_mono (s : EditorState) (e : Event)
    (h : s.isLibraryLoaded = true) : (step s e).isLibraryLoaded = true := by
  cases e with
  | pollTick present => cases present <;> simp [step, h]
  | scriptOnLoad => simp [step]
  | edit v => simp [step, onInputChange, h]
  | exportClick env => simp [step, clickExport_fst_isLibraryLoaded, h]
  | copyClick env => simp [step, h]

/-- From a state with the flag already true, no trace flips it again. -/
theorem countFlagRises_of_true (s : EditorState) (es : List Event)
    (h : s.isLibraryLoaded = true) : countFlagRises s es = 0 := by
  induction es generalizing s with
  | nil => rfl
  | cons e es ih =>
    simp only [countFlagRises]
    rw [ih (step s e) (step_flag_mono s e h)]
    simp [h]

/-- Any trace flips the flag at most once. -/
theorem countFlagRises_le_one (s : EditorState) (es : List Event) :
    countFlagRises s es ≤ 1 := by
  induction es generalizing s with
  | nil => simp [countFlagRises]
  | cons e es ih =>
    simp only [countFlagRises]
    by_cases h : s.isLibraryLoaded = false ∧ (step s e).isLibraryLoaded = true
    · rw [if_pos h, countFlagRises_of_true _ _ h.2]
    · rw [if_neg h]
      simpa using ih (step s e)

/-- A trace that starts with the flag false and ends with it true flips it
exactly once. -/
theorem countFlagRises_run (s : EditorState) (es : List Event)
    (h0 : s.isLibraryLoaded = false) (h1 : (run s es).isLibraryLoaded = true) :
    countFlagRises s es = 1 := by
  induction es generalizing s with
  | nil => simp [run, h0] at h1
  | cons e es ih =>
    have h1' : (run (step s e) es).isLibraryLoaded = true := h1
    simp only [countFlagRises]
    by_cases h : (step s e).isLibraryLoaded = true
    · rw [if_pos ⟨h0, h⟩, countFlagRises_of_true _ _ h]
    · have h0' : (step s e).isLibraryLoaded = false := by
        cases hb : (step s e).isLibraryLoaded
        · rfl
        · exact absurd hb h
      rw [if_neg (by simp [h0'])]
      simpa using ih (step s e) h0' h1'

/-- Claim C9: the Export Readiness Flag starts false, no event of the
component's lifetime ever takes it from true back to false, any event
trace flips it false-to-true at most once, and a trace at whose end the
flag is true flipped it exactly once — whichever of the poll path or the
script-load callback fired first did it. -/
theorem library_flag_monotone :
    initialState.isLibraryLoaded = false ∧
    (∀ (s : EditorState) (e : Event), s.isLibraryLoaded = true →
      (step s e).isLibraryLoaded = true) ∧
    (∀ es : List Event, countFlagRises initialState es ≤ 1) ∧
    (∀ es : List Event, (run initialState es).isLibraryLoaded = true →
      countFlagRises initialState es = 1) :=
  ⟨rfl, step_flag_mono, fun es => countFlagRises_le_one initialState es,
   fun es h => countFlagRises_run initialState es rfl h⟩

/-- Concrete instance of `library_flag_monotone`: a trace where the script
`onLoad` fires, then a poll tick and an edit occur, flips the flag exactly
once. -/
theorem library_flag_monotone_witness :
    countFlagRises initialState
      [Event.scriptOnLoad, Event.pollTick true, Event.edit "# Title"] = 1 :=
  library_flag_monotone.2.2.2
    [Event.scriptOnLoad, Event.pollTick true, Event.edit "# Title"] rfl

/-- Claim C10: with the Preview Pane's root node unmounted, the Export-PDF
action is rejected through the same guard even when the readiness flag is
true and `window.html2pdf` is present: the state (both flags included) is
unchanged, the only effect is the same "library not loaded" toast, and no
library call occurs. -/
theorem export_rejected_when_unmounted (s : EditorState) (env : Env)
    (hm : env.previewMounted = false) (hl : s.isLibraryLoaded = true)
    (hp : env.html2pdfPresent = true) :
    handleExport s env = (s, [Effect.toast exportNotLoadedToast]) ∧
    (handleExport s env).2.filter isLibCall = [] := by
  simp [handleExport, hm, isLibCall]

/-- Concrete instance of `export_rejected_when_unmounted`: ready state,
library present, preview unmounted. -/
theorem export_rejected_when_unmounted_witness :
    handleExport readyState { envAllOk with previewMounted := false }
      = (readyState, [Effect.toast exportNotLoadedToast]) :=
  (export_rejected_when_unmounted readyState { envAllOk with previewMounted := false }
    rfl rfl rfl).1

end MarkdownEditor
